import Mathlib

/-!
Verification of the react-timeseries-charts components `AreaChart`
(src/packages/react-timeseries-charts/src/components/AreaChart.tsx) and
`Baseline` (src/packages/react-timeseries-charts/dist/Baseline.js).

The TypeScript/JavaScript code is shallowly embedded: JavaScript numbers are
modelled as `Int` (style opacities as `Rat`), JavaScript objects as structures
or association lists, `undefined`/absent values as `Option`, and a computation
that throws a `TypeError` as `Except Unit`.  The external d3-shape path
generators and the external `./style` module are environment parameters; the
external deep-equality `TimeSeries.is` of pondjs is modelled as structural
equality on the series data.
-/

namespace AreaChartModel

/-- One point of the pondjs `TimeSeries`: a timestamp plus named numeric
columns.  `series.at(j).get(column)` reads a column; a column that is missing
from the row is modelled as the value 0. -/
structure SeriesPoint where
  timestamp : Int
  fields : List (String × Int)
deriving DecidableEq

/-- `seriesPoint.get(column)` of pondjs, on the modelled row. -/
def SeriesPoint.get (sp : SeriesPoint) (column : String) : Int :=
  (sp.fields.lookup column).getD 0

/-- A CSS property value appearing in the style objects. -/
inductive CSSVal
  | s : String → CSSVal
  | n : Rat → CSSVal
deriving DecidableEq

/-- A flat CSS style object (`CSSProperties`), as an association list. -/
abbrev CSS : Type := List (String × CSSVal)

/-- The four interaction variants of `lineStyle` / `areaStyle`. -/
structure VariantStyles where
  normal : CSS
  highlighted : CSS
  selected : CSS
  muted : CSS
deriving DecidableEq

/-- `AreaChartStyle`: a line (outline) style and an area style. -/
structure AreaChartStyle where
  line : VariantStyles
  area : VariantStyles
deriving DecidableEq

/-- The built-in `defaultStyle` constant of AreaChart.tsx (lines 43-56). -/
def defaultStyle : AreaChartStyle :=
  { line :=
      { normal := [("stroke", CSSVal.s "steelblue"), ("fill", CSSVal.s "none"),
                   ("strokeWidth", CSSVal.n 1)]
        highlighted := [("stroke", CSSVal.s "#5a98cb"), ("fill", CSSVal.s "none"),
                   ("strokeWidth", CSSVal.n 1)]
        selected := [("stroke", CSSVal.s "steelblue"), ("fill", CSSVal.s "none"),
                   ("strokeWidth", CSSVal.n 1)]
        muted := [("stroke", CSSVal.s "steelblue"), ("fill", CSSVal.s "none"),
                   ("opacity", CSSVal.n 0.4), ("strokeWidth", CSSVal.n 1)] }
    area :=
      { normal := [("fill", CSSVal.s "steelblue"), ("stroke", CSSVal.s "none"),
                   ("opacity", CSSVal.n 0.75)]
        highlighted := [("fill", CSSVal.s "#5a98cb"), ("stroke", CSSVal.s "none"),
                   ("opacity", CSSVal.n 0.75)]
        selected := [("fill", CSSVal.s "steelblue"), ("stroke", CSSVal.s "none"),
                   ("opacity", CSSVal.n 0.75)]
        muted := [("fill", CSSVal.s "steelblue"), ("stroke", CSSVal.s "none"),
                   ("opacity", CSSVal.n 0.25)] } }

/-- A caller-supplied group of variant styles: each of the four variants may be
absent (`styleMap[type].selected ? ... : {}` tests for it). -/
structure ProvidedVariants where
  normal : Option CSS
  highlighted : Option CSS
  selected : Option CSS
  muted : Option CSS
deriving DecidableEq

/-- A caller-supplied per-column style map: the `line` and `area` sub-keys may
each be absent (checked by `_.has(styleMap, "line" / "area")`). -/
structure ProvidedStyleMap where
  line : Option ProvidedVariants
  area : Option ProvidedVariants
deriving DecidableEq

/-- View of fully-given `VariantStyles` as a caller-supplied group. -/
def toProvidedVariants (v : VariantStyles) : ProvidedVariants :=
  ⟨some v.normal, some v.highlighted, some v.selected, some v.muted⟩

/-- View of a fully-given `AreaChartStyle` (the built-in default) as a
caller-supplied style map: every sub-key present. -/
def toProvided (s : AreaChartStyle) : ProvidedStyleMap :=
  ⟨some (toProvidedVariants s.line), some (toProvidedVariants s.area)⟩

/-- A `d3.scaleTime`-like scale prop.  `fn` is the scale applied as a function;
`domainRange` is what `scaleAsString` renders of it (its domain and range). -/
structure TimeScale where
  fn : Int → Int
  domainRange : String

/-- Modelled from the spec: `scaleAsString` lives in `src/js/util`, which is
not present under src/.  Per the claim text it serialises a scale for
comparison (its domain and range); the scale prop is modelled as carrying that
serialisation in its `domainRange` field. -/
def scaleAsString (s : TimeScale) : String := s.domainRange

/-- The y-axis scale prop.  `fn` is the scale applied as a function; `ref`
models JavaScript reference identity, which the `!==` comparison in
`shouldComponentUpdate` uses. -/
structure YScale where
  fn : Int → Int
  ref : Nat

/-- The `columns` prop: the column names mapped to the up and the down
direction. -/
structure AreaChartColumns where
  up : List String
  down : List String
deriving DecidableEq

/-- The props of `AreaChart` that its methods read.  The `style` prop is the
per-column style object of the `_.isObject` branch of `providedAreaStyleMap`
(an absent prop is `none`; the `Styler` branch delegates to the external
styler and is not modelled).  The two callback props are modelled by whether
they are provided. -/
structure AreaChartProps where
  series : List SeriesPoint
  timeScale : TimeScale
  yScale : YScale
  columns : AreaChartColumns
  style : Option (List (String × ProvidedStyleMap))
  interpolation : String
  stack : Bool
  highlight : Option String
  selection : Option String
  onHighlightChange : Bool
  onSelectionChange : Bool
  width : Int

/-- `providedAreaStyleMap(column)` (lines 191-205): the built-in
`defaultStyle` when no style prop is given, otherwise the entry of the column in
the caller-supplied object, which is `undefined` (`none`) when the object has
no such column. -/
def providedAreaStyleMap (p : AreaChartProps) (column : String) :
    Option ProvidedStyleMap :=
  match p.style with
  | none => some (toProvided defaultStyle)
  | some m => m.lookup column

/-- JavaScript truthy equality test `o && column === o` for an optional
string prop against a column name. -/
def truthyEq (o : Option String) (column : String) : Bool :=
  match o with
  | some s => s == column
  | none => false

/-- The key-update step of the npm `merge` call: an existing key is
overwritten in place, a new key is appended. -/
def setKeyCSS (a : CSS) (k : String) (v : CSSVal) : CSS :=
  if (List.lookup k a).isSome then
    a.map (fun kv => if kv.1 = k then (k, v) else kv)
  else
    a ++ [(k, v)]

/-- `merge(true, a, b)` of the npm merge package on the flat CSS objects used
here: a clone of `a` with every key of `b` written over it.  (On these flat
objects the recursive and the non-recursive merge coincide, because no value
of the built-in defaults is itself an object.) -/
def mergeCSS (a b : CSS) : CSS :=
  b.foldl (fun acc kv => setKeyCSS acc kv.1 kv.2) a

/-- The two style types that `style(column, type)` is called with. -/
inductive StyleType
  | line
  | area
deriving DecidableEq

/-- `styleMap[type]` on a caller-supplied style map. -/
def typeField (sm : ProvidedStyleMap) (ty : StyleType) : Option ProvidedVariants :=
  match ty with
  | StyleType.line => sm.line
  | StyleType.area => sm.area

/-- `defaultStyle[type][variant]` selection on `VariantStyles`. -/
inductive Variant
  | normal
  | highlighted
  | selected
  | muted
deriving DecidableEq

/-- Variant selection on a full `VariantStyles`. -/
def variantCSS (v : VariantStyles) : Variant → CSS
  | Variant.normal => v.normal
  | Variant.highlighted => v.highlighted
  | Variant.selected => v.selected
  | Variant.muted => v.muted

/-- `defaultStyle[type][variant]`. -/
def defaultVariantCSS (ty : StyleType) (v : Variant) : CSS :=
  match ty with
  | StyleType.line => variantCSS defaultStyle.line v
  | StyleType.area => variantCSS defaultStyle.area v

/-- Variant selection on a caller-supplied group, where the variant may be
absent. -/
def variantField (pv : ProvidedVariants) : Variant → Option CSS
  | Variant.normal => pv.normal
  | Variant.highlighted => pv.highlighted
  | Variant.selected => pv.selected
  | Variant.muted => pv.muted

/-- `_.has(styleMap, "line"/"area")`, on the possibly-`undefined` result of
`providedAreaStyleMap` (`_.has` is false on `undefined`). -/
def hasStyleKey (m : Option ProvidedStyleMap) (ty : StyleType) : Bool :=
  match m with
  | none => false
  | some sm => (typeField sm ty).isSome

/-- The first `console.error` text of `style` (line 218). -/
def outlineWarning : String :=
  "Provided style for AreaChart does not define a style for the outline:"

/-- The second `console.error` text of `style` (line 221). -/
def areaWarning : String :=
  "Provided style for AreaChart does not define a style for the area:"

/-- `style(column, type)` (lines 210-241).  The first component is the list
of console messages emitted; the second is the returned merged style, or
`Except.error ()` for the `TypeError` that `styleMap[type].variant` raises
when `styleMap` is `undefined` or lacks the `type` key. -/
def styleCall (p : AreaChartProps) (column : String) (ty : StyleType) :
    List String × Except Unit CSS :=
  let styleMap := providedAreaStyleMap p column
  let isHighlighted := truthyEq p.highlight column
  let isSelected := truthyEq p.selection column
  let warns :=
    (if hasStyleKey styleMap StyleType.line then [] else [outlineWarning]) ++
    (if hasStyleKey styleMap StyleType.area then [] else [areaWarning])
  let result : Except Unit CSS :=
    match styleMap with
    | none => Except.error ()
    | some sm =>
      match typeField sm ty with
      | none => Except.error ()
      | some pv =>
        if p.selection.isSome then
          if isSelected then
            Except.ok (mergeCSS (defaultVariantCSS ty Variant.selected)
              ((variantField pv Variant.selected).getD []))
          else if isHighlighted then
            Except.ok (mergeCSS (defaultVariantCSS ty Variant.highlighted)
              ((variantField pv Variant.highlighted).getD []))
          else
            Except.ok (mergeCSS (defaultVariantCSS ty Variant.muted)
              ((variantField pv Variant.muted).getD []))
        else if isHighlighted then
          Except.ok (mergeCSS (defaultVariantCSS ty Variant.highlighted)
            ((variantField pv Variant.highlighted).getD []))
        else
          Except.ok (mergeCSS (defaultVariantCSS ty Variant.normal)
            ((variantField pv Variant.normal).getD []))
  (warns, result)

/-- The variant the specification says `style(column, type)` resolves: with a
selection set, `selected` for the selected column, else `highlighted` for the
highlighted column, else `muted`; with no selection, `highlighted` for the
highlighted column, else `normal`.  Written from the words of the claim, to be
compared with the source translation `styleCall`. -/
def claimedVariant (p : AreaChartProps) (column : String) : Variant :=
  if p.selection.isSome then
    if p.selection = some column then Variant.selected
    else if p.highlight.isSome ∧ p.highlight = some column then Variant.highlighted
    else Variant.muted
  else if p.highlight.isSome ∧ p.highlight = some column then Variant.highlighted
  else Variant.normal

/-- The observable effect of firing one of the attached event handlers: an
invocation of one of the two callback props. -/
inductive UiEvent
  | highlightChange : Option String → UiEvent
  | selectionChange : String → UiEvent
deriving DecidableEq

/-- `handleHover(e, column)` (lines 172-176): calls `onHighlightChange(column)`
when that callback prop is provided, otherwise does nothing. -/
def handleHover (p : AreaChartProps) (column : String) : List UiEvent :=
  if p.onHighlightChange then [UiEvent.highlightChange (some column)] else []

/-- `handleHoverLeave()` (lines 178-182): calls `onHighlightChange(null)` when
that callback prop is provided, otherwise does nothing. -/
def handleHoverLeave (p : AreaChartProps) : List UiEvent :=
  if p.onHighlightChange then [UiEvent.highlightChange none] else []

/-- `handleClick(e, column)` (lines 184-189): calls `onSelectionChange(column)`
when that callback prop is provided, otherwise does nothing (the
`e.stopPropagation()` on the event object is not modelled). -/
def handleClick (p : AreaChartProps) (column : String) : List UiEvent :=
  if p.onSelectionChange then [UiEvent.selectionChange column] else []

/-- `direction === "up" ? 1 : -1` (line 252). -/
def dirOf (direction : String) : Int :=
  if direction == "up" then 1 else -1

/-- One stacked data point `{x0, y0, y1}` (lines 263-267). -/
structure DataPoint where
  x0 : Int
  y0 : Int
  y1 : Int
deriving DecidableEq

/-- The j-loop of `renderPaths` (lines 260-271): given the rows of the series
and the current contents of the `offsets` array, build the stacked data list
and the updated offsets.  Row `j` yields
`{x0 = timeScale(t_j), y0 = yScale(offsets[j]), y1 = yScale(offsets[j] + dir*v)}`
and, when the `stack` prop is set, `offsets[j] += dir * v`. -/
def buildData (ts ys : Int → Int) (stack : Bool) (dir : Int) (column : String) :
    List SeriesPoint → List Int → List DataPoint × List Int
  | [], _ => ([], [])
  | _ :: _, [] => ([], [])
  | sp :: sps, off :: offs =>
    (⟨ts sp.timestamp, ys off, ys (off + dir * sp.get column)⟩ ::
        (buildData ts ys stack dir column sps offs).1,
     (if stack then off + dir * sp.get column else off) ::
        (buildData ts ys stack dir column sps offs).2)

/-- The external d3-shape generators (the `area()` and `line()` builders of
lines 274-289), as functions from the interpolation/curve name and the
accessor values they are fed to the SVG path string they produce. -/
structure D3Env where
  d3area : String → List (Int × Int × Int) → String
  d3line : String → List (Int × Int) → String

/-- The keyed `g` element that one column iteration of `renderPaths` returns
(lines 291-307): the stacked data, the two path `d` attributes, the two
resolved styles, and (for both `<path>` children, which attach identical
handlers) the effects of the three event handlers bound to this column. -/
structure RenderedPath where
  key : String
  column : String
  data : List DataPoint
  areaD : String
  outlineD : String
  areaStyle : CSS
  outlineStyle : CSS
  onMouseMove : List UiEvent
  onMouseLeave : List UiEvent
  onClick : List UiEvent
deriving DecidableEq

/-- Builds the `<g>` element for one column from the offsets the stacking has
accumulated so far (`i` is the map index used for the key). -/
def mkGroup (env : D3Env) (p : AreaChartProps) (dir : Int) (column : String)
    (i : Nat) (offsets : List Int) (ast pst : CSS) : RenderedPath :=
  { key := "area-" ++ toString i
    column := column
    data := (buildData p.timeScale.fn p.yScale.fn p.stack dir column p.series offsets).1
    areaD := env.d3area p.interpolation
      (((buildData p.timeScale.fn p.yScale.fn p.stack dir column p.series offsets).1).map
        (fun d => (d.x0, d.y0, d.y1)))
    outlineD := env.d3line p.interpolation
      (((buildData p.timeScale.fn p.yScale.fn p.stack dir column p.series offsets).1).map
        (fun d => (d.x0, d.y1)))
    areaStyle := ast
    outlineStyle := pst
    onMouseMove := handleHover p column
    onMouseLeave := handleHoverLeave p
    onClick := handleClick p column }

/-- The `columnList.map` of `renderPaths` (lines 255-308), with the mutable
`offsets` array threaded through the iterations.  Each iteration first
resolves `areaStyle(column)` and `pathStyle(column)`; a `TypeError` thrown
there aborts the whole render. -/
def renderPathsAux (env : D3Env) (p : AreaChartProps) (dir : Int) :
    List String → Nat → List Int → Except Unit (List RenderedPath)
  | [], _, _ => Except.ok []
  | c :: cs, i, offsets =>
    match (styleCall p c StyleType.area).2 with
    | Except.error e => Except.error e
    | Except.ok ast =>
      match (styleCall p c StyleType.line).2 with
      | Except.error e => Except.error e
      | Except.ok pst =>
        match renderPathsAux env p dir cs (i + 1)
            (buildData p.timeScale.fn p.yScale.fn p.stack dir c p.series offsets).2 with
        | Except.error e => Except.error e
        | Except.ok gs => Except.ok (mkGroup env p dir c i offsets ast pst :: gs)

/-- `renderPaths(columnList, direction)` (lines 251-309): the offsets
accumulator is freshly allocated as `size` zeros. -/
def renderPaths (env : D3Env) (p : AreaChartProps) (columnList : List String)
    (direction : String) : Except Unit (List RenderedPath) :=
  renderPathsAux env p (dirOf direction) columnList 0
    (List.replicate p.series.length 0)

/-- `renderAreas()` (lines 311-320): the up paths and the down paths. -/
def renderAreas (env : D3Env) (p : AreaChartProps) :
    Except Unit (List RenderedPath × List RenderedPath) :=
  match renderPaths env p p.columns.up "up" with
  | Except.error e => Except.error e
  | Except.ok u =>
    match renderPaths env p p.columns.down "down" with
    | Except.error e => Except.error e
    | Except.ok d => Except.ok (u, d)

/-- `render()` (lines 322-328): a `<g>` around `renderAreas()`. -/
def render (env : D3Env) (p : AreaChartProps) :
    Except Unit (List RenderedPath × List RenderedPath) :=
  renderAreas env p

/-- Whether an `Except` computation succeeded. -/
def exOk {ε α : Type} : Except ε α → Bool
  | Except.ok _ => true
  | Except.error _ => false

/-- The value at row `j` of a column, as `renderPaths` reads it
(`series.at(j).get(column)`; 0 past the end). -/
def rowVal (sps : List SeriesPoint) (j : Nat) (column : String) : Int :=
  match sps.get? j with
  | some sp => sp.get column
  | none => 0

/-- The cumulative stacking offset the specification describes: the sum of
`dir` times the row-`j` values of the first `k` columns of the direction.
Written from the words of the claim, to be compared with the offsets that
`renderPaths` accumulates. -/
def stackSum (sps : List SeriesPoint) (dir : Int) (cols : List String)
    (j k : Nat) : Int :=
  (((cols.take k).map (fun c => dir * rowVal sps j c))).sum

/-- The contents of the `offsets` array after the iterations for a list of
columns have run (the fold `renderPathsAux` threads). -/
def offsAfter (p : AreaChartProps) (dir : Int) (cols : List String)
    (offs : List Int) : List Int :=
  cols.foldl
    (fun o c => (buildData p.timeScale.fn p.yScale.fn p.stack dir c p.series o).2) offs

/-- `TimeSeries.is` of the external pondjs library: deep structural equality
of the data of the two series, modelled on the embedded rows. -/
def timeSeriesIs (a b : List SeriesPoint) : Bool :=
  decide (a = b)

/-- JSON serialisation of a list of strings. -/
def jsonOfList (l : List String) : String :=
  "[" ++ String.intercalate "," (l.map (fun s => "\"" ++ s ++ "\"")) ++ "]"

/-- `JSON.stringify` of the `columns` prop. -/
def jsonOfColumns (c : AreaChartColumns) : String :=
  "\x7b\"up\":" ++ jsonOfList c.up ++ ",\"down\":" ++ jsonOfList c.down ++ "\x7d"

/-- JSON serialisation of a CSS value. -/
def jsonOfCSSVal : CSSVal → String
  | CSSVal.s s => "\"" ++ s ++ "\""
  | CSSVal.n q => toString q

/-- JSON serialisation of a flat CSS object. -/
def jsonOfCSS (c : CSS) : String :=
  "\x7b" ++
    String.intercalate ","
      (c.map (fun kv => "\"" ++ kv.1 ++ "\":" ++ jsonOfCSSVal kv.2)) ++ "\x7d"

/-- JSON serialisation of a possibly-absent variant entry (an absent key is
skipped by `JSON.stringify`; rendered here as the empty string). -/
def jsonOfVariantEntry (name : String) : Option CSS → String
  | none => ""
  | some c => "\"" ++ name ++ "\":" ++ jsonOfCSS c

/-- JSON serialisation of a caller-supplied variant group. -/
def jsonOfProvidedVariants (pv : ProvidedVariants) : String :=
  "\x7b" ++ jsonOfVariantEntry "normal" pv.normal ++
    jsonOfVariantEntry "highlighted" pv.highlighted ++
    jsonOfVariantEntry "selected" pv.selected ++
    jsonOfVariantEntry "muted" pv.muted ++ "\x7d"

/-- JSON serialisation of a caller-supplied per-column style map. -/
def jsonOfProvidedStyleMap (sm : ProvidedStyleMap) : String :=
  "\x7b" ++
    (match sm.line with
     | none => ""
     | some pv => "\"line\":" ++ jsonOfProvidedVariants pv) ++
    (match sm.area with
     | none => ""
     | some pv => "\"area\":" ++ jsonOfProvidedVariants pv) ++ "\x7d"

/-- `JSON.stringify` of the `style` prop (`JSON.stringify(undefined)` is
`undefined`, rendered as its own marker string). -/
def jsonOfStyle : Option (List (String × ProvidedStyleMap)) → String
  | none => "undefined"
  | some m =>
    "\x7b" ++
      String.intercalate ","
        (m.map (fun kv => "\"" ++ kv.1 ++ "\":" ++ jsonOfProvidedStyleMap kv.2)) ++
      "\x7d"

/-- `shouldComponentUpdate(nextProps)` (lines 135-170): re-render exactly when
one of the nine tracked props changed, the series compared by size and then
`TimeSeries.is`, the time scale via `scaleAsString`, columns and style via
`JSON.stringify`, the y scale by reference, and the rest by `!==`. -/
def shouldComponentUpdate (cur next : AreaChartProps) : Bool :=
  let widthChanged := !(decide (cur.width = next.width))
  let timeScaleChanged :=
    !(decide (scaleAsString cur.timeScale = scaleAsString next.timeScale))
  let yAxisScaleChanged := !(decide (cur.yScale.ref = next.yScale.ref))
  let interpolationChanged := !(decide (cur.interpolation = next.interpolation))
  let columnsChanged :=
    !(decide (jsonOfColumns cur.columns = jsonOfColumns next.columns))
  let styleChanged := !(decide (jsonOfStyle cur.style = jsonOfStyle next.style))
  let highlightChanged := !(decide (cur.highlight = next.highlight))
  let selectionChanged := !(decide (cur.selection = next.selection))
  let seriesChanged :=
    if cur.series.length = next.series.length then
      !(timeSeriesIs cur.series next.series)
    else true
  seriesChanged || timeScaleChanged || widthChanged || interpolationChanged ||
    columnsChanged || styleChanged || yAxisScaleChanged || highlightChanged ||
    selectionChanged

/-- Extensional equality of two props records: every prop equal, the two
scale functions pointwise equal. -/
def propsEquiv (p q : AreaChartProps) : Prop :=
  p.series = q.series ∧
  (∀ t, p.timeScale.fn t = q.timeScale.fn t) ∧
  p.timeScale.domainRange = q.timeScale.domainRange ∧
  (∀ v, p.yScale.fn v = q.yScale.fn v) ∧
  p.yScale.ref = q.yScale.ref ∧
  p.columns = q.columns ∧
  p.style = q.style ∧
  p.interpolation = q.interpolation ∧
  p.stack = q.stack ∧
  p.highlight = q.highlight ∧
  p.selection = q.selection ∧
  p.onHighlightChange = q.onHighlightChange ∧
  p.onSelectionChange = q.onSelectionChange ∧
  p.width = q.width

/-- A concrete d3 environment for evaluating the model on sample inputs. -/
def exEnv : D3Env :=
  { d3area := fun i d => "A:" ++ i ++ ":" ++ toString d.length
    d3line := fun i d => "L:" ++ i ++ ":" ++ toString d.length }

/-- A two-row sample series with an "in" and an "out" column. -/
def exSeries : List SeriesPoint :=
  [⟨0, [("in", 3), ("out", 5)]⟩, ⟨10, [("in", 4), ("out", 6)]⟩]

/-- Sample props: stacked, no caller style, no highlight or selection,
`onHighlightChange` provided, `onSelectionChange` absent. -/
def exProps : AreaChartProps :=
  { series := exSeries
    timeScale := ⟨fun t => t, "domain-range"⟩
    yScale := ⟨fun v => 100 - v, 0⟩
    columns := ⟨["in", "out"], []⟩
    style := none
    interpolation := "curveLinear"
    stack := true
    highlight := none
    selection := none
    onHighlightChange := true
    onSelectionChange := false
    width := 800 }

/-- The sample props with the `stack` prop falsy. -/
def exPropsUnstacked : AreaChartProps :=
  { exProps with stack := false }

/-- A caller style for the "in" column that supplies the `line` sub-key but
omits the `area` sub-key. -/
def exPropsLineOnly : AreaChartProps :=
  { exProps with
      style := some [("in", ⟨some (toProvidedVariants defaultStyle.line), none⟩)] }

/-- A caller style object with no entry at all for the "in" column. -/
def exPropsEmptyStyle : AreaChartProps :=
  { exProps with style := some [] }

end AreaChartModel

namespace BaselineModel

open AreaChartModel

/-- The props `Baseline.prototype.render` reads: the y scale (absent when the
prop is not given), the `value` prop (`none` models `undefined`), the label,
the `position` ("left" by `Baseline.defaultProps`), the width, and the
caller-supplied label/line styles. -/
structure BaselineProps where
  yScale : Option (Int → Int)
  value : Option Int
  label : String
  position : String
  width : Int
  styleLabel : Option CSS
  styleLine : Option CSS

/-- The `baselineDefaultStyle` of the external style module (dist/style.js is
not part of src/), as an environment parameter. -/
structure BaselineEnv where
  defaultLabelStyle : CSS
  defaultLineStyle : CSS

/-- The `<g className="baseline">` element `Baseline.prototype.render`
returns when it does not return null. -/
structure BaselineG where
  transform : String
  points : String
  lineStyle : CSS
  labelStyle : CSS
  textAnchor : Option String
  textPositionX : Option Int
  textPositionY : Int
  label : String

/-- `Baseline.prototype.render` (dist/Baseline.js lines 21-47): null when the
`yScale` prop is falsy or the `value` prop is undefined; otherwise a group
translated to `yScale(value)` holding the polyline `0 0  width 0` and the
label, anchored left or right according to `position` (anchor and x stay
unset for any other position). -/
def baselineRender (env : BaselineEnv) (p : BaselineProps) : Option BaselineG :=
  match p.yScale, p.value with
  | some ysc, some v =>
    some
      { transform := "translate(0 " ++ toString (ysc v) ++ ")"
        points := "0 0 " ++ toString p.width ++ " 0"
        lineStyle := mergeCSS env.defaultLineStyle (p.styleLine.getD [])
        labelStyle := mergeCSS env.defaultLabelStyle (p.styleLabel.getD [])
        textAnchor :=
          if p.position == "left" then some "start"
          else if p.position == "right" then some "end"
          else none
        textPositionX :=
          if p.position == "left" then some 5
          else if p.position == "right" then some (p.width - 5)
          else none
        textPositionY := -3
        label := p.label }
  | _, _ => none

/-- A sample y scale for the baseline. -/
def exYScale : Int → Int := fun v => 2 * v

/-- A sample external default baseline style. -/
def exBaselineEnv : BaselineEnv :=
  ⟨[("fill", CSSVal.s "#626262")], [("stroke", CSSVal.s "#626262")]⟩

/-- Sample baseline props with both `yScale` and `value` present. -/
def exBaselineProps : BaselineProps :=
  ⟨some exYScale, some 10, "a baseline", "left", 100, none, none⟩

end BaselineModel

open AreaChartModel BaselineModel

lemma buildData_fst_get? (ts ys : Int → Int) (st : Bool) (dir : Int) (c : String) :
    ∀ (sps : List SeriesPoint) (offs : List Int) (j : Nat) (x : Int) (sp : SeriesPoint),
      offs[j]? = some x → sps[j]? = some sp →
      (buildData ts ys st dir c sps offs).1[j]? =
        some ⟨ts sp.timestamp, ys x, ys (x + dir * sp.get c)⟩ := by
  intro sps
  induction sps with
  | nil => intro offs j x sp hx hsp; simp at hsp
  | cons sp' sps ih =>
    intro offs j x sp hx hsp
    cases offs with
    | nil => simp at hx
    | cons off offs =>
      cases j with
      | zero =>
        simp at hx hsp
        subst hx
        subst hsp
        simp [buildData]
      | succ j =>
        simp at hx hsp
        simpa [buildData] using ih offs j x sp hx hsp

lemma buildData_snd_get? (ts ys : Int → Int) (st : Bool) (dir : Int) (c : String) :
    ∀ (sps : List SeriesPoint) (offs : List Int) (j : Nat) (x : Int) (sp : SeriesPoint),
      offs[j]? = some x → sps[j]? = some sp →
      (buildData ts ys st dir c sps offs).2[j]? =
        some (if st then x + dir * sp.get c else x) := by
  intro sps
  induction sps with
  | nil => intro offs j x sp hx hsp; simp at hsp
  | cons sp' sps ih =>
    intro offs j x sp hx hsp
    cases offs with
    | nil => simp at hx
    | cons off offs =>
      cases j with
      | zero =>
        simp at hx hsp
        subst hx
        subst hsp
        simp [buildData]
      | succ j =>
        simp at hx hsp
        simpa [buildData] using ih offs j x sp hx hsp

lemma offsAfter_nil (p : AreaChartProps) (dir : Int) (offs : List Int) :
    offsAfter p dir [] offs = offs := rfl

lemma offsAfter_cons (p : AreaChartProps) (dir : Int) (c : String)
    (cs : List String) (offs : List Int) :
    offsAfter p dir (c :: cs) offs =
      offsAfter p dir cs
        (buildData p.timeScale.fn p.yScale.fn p.stack dir c p.series offs).2 := rfl

lemma offsAfter_get? (p : AreaChartProps) (dir : Int) (j : Nat) (sp : SeriesPoint)
    (hsp : p.series[j]? = some sp) :
    ∀ (cols : List String) (offs : List Int) (x : Int), offs[j]? = some x →
      (offsAfter p dir cols offs)[j]? =
        some (x + if p.stack then (cols.map (fun c => dir * rowVal p.series j c)).sum
                  else 0) := by
  intro cols
  induction cols with
  | nil =>
    intro offs x hx
    simp [offsAfter_nil, hx]
  | cons c cs ih =>
    intro offs x hx
    rw [offsAfter_cons]
    have hstep := buildData_snd_get? p.timeScale.fn p.yScale.fn p.stack dir c
      p.series offs j x sp hx hsp
    have := ih _ _ hstep
    rw [this]
    have hrv : rowVal p.series j c = sp.get c := by
      simp [rowVal, List.get?_eq_getElem?, hsp]
    cases hst : p.stack with
    | false => simp [hst]
    | true =>
      simp [hst, hrv]
      ring

lemma renderPathsAux_get (env : D3Env) (p : AreaChartProps) (dir : Int) :
    ∀ (cols : List String) (i : Nat) (offs : List Int) (gs : List RenderedPath),
      renderPathsAux env p dir cols i offs = Except.ok gs →
      ∀ (k : Nat), k < cols.length →
        ∃ ast pst,
          (styleCall p (cols.getD k "") StyleType.area).2 = Except.ok ast ∧
          (styleCall p (cols.getD k "") StyleType.line).2 = Except.ok pst ∧
          gs[k]? = some (mkGroup env p dir (cols.getD k "") (i + k)
            (offsAfter p dir (cols.take k) offs) ast pst) := by
  intro cols
  induction cols with
  | nil => intro i offs gs hok k hk; simp at hk
  | cons c cs ih =>
    intro i offs gs hok k hk
    rw [renderPathsAux] at hok
    cases ha : (styleCall p c StyleType.area).2 with
    | error e => rw [ha] at hok; cases hok
    | ok ast =>
      rw [ha] at hok
      cases hl : (styleCall p c StyleType.line).2 with
      | error e => rw [hl] at hok; cases hok
      | ok pst =>
        rw [hl] at hok
        cases hr : renderPathsAux env p dir cs (i + 1)
            (buildData p.timeScale.fn p.yScale.fn p.stack dir c p.series offs).2 with
        | error e => rw [hr] at hok; cases hok
        | ok gs' =>
          rw [hr] at hok
          cases hok
          cases k with
          | zero =>
            refine ⟨ast, pst, ?_, ?_, ?_⟩ <;>
              simp [ha, hl, offsAfter_nil]
          | succ k =>
            obtain ⟨ast', pst', ha', hl', hg'⟩ :=
              ih (i + 1) _ gs' hr k (Nat.lt_of_succ_lt_succ hk)
            refine ⟨ast', pst', ?_, ?_, ?_⟩
            · simpa using ha'
            · simpa using hl'
            · have hi : i + (k + 1) = i + 1 + k := by omega
              simpa [offsAfter_cons, hi] using hg'

lemma replicate_get?_zero (n j : Nat) (h : j < n) :
    (List.replicate n (0 : Int))[j]? = some 0 := by
  simp [List.getElem?_replicate, h]

lemma buildData_snd_unstacked (ts ys : Int → Int) (dir : Int) (c : String) :
    ∀ (sps : List SeriesPoint) (offs : List Int), offs.length = sps.length →
      (buildData ts ys false dir c sps offs).2 = offs := by
  intro sps
  induction sps with
  | nil =>
    intro offs hlen
    cases offs with
    | nil => rfl
    | cons o os => simp at hlen
  | cons sp sps ih =>
    intro offs hlen
    cases offs with
    | nil => simp at hlen
    | cons o os =>
      simp at hlen
      simp [buildData, ih os hlen]

lemma offsAfter_unstacked (p : AreaChartProps) (dir : Int)
    (hstack : p.stack = false) :
    ∀ (cols : List String) (offs : List Int), offs.length = p.series.length →
      offsAfter p dir cols offs = offs := by
  intro cols
  induction cols with
  | nil => intro offs hlen; rfl
  | cons c cs ih =>
    intro offs hlen
    rw [offsAfter_cons]
    rw [hstack, buildData_snd_unstacked p.timeScale.fn p.yScale.fn dir c
      p.series offs hlen]
    exact ih offs hlen

/-- C1: with the stack prop true, the data point `renderPaths` builds for the
k-th column of a direction at row j has `y0 = yScale(S)` and
`y1 = yScale(S + dir*v)`, where `dir` is +1 for "up" and -1 otherwise, `v` is
the value of the k-th column at row j, and `S` is the cumulative sum of `dir` times
the row-j values of the earlier columns of the direction; the offsets accumulator
is re-initialised to `size` zeros for each direction, so the up and down
stacks accumulate independently. -/
theorem areaChart_renderPaths_stacked_bands (env : D3Env) (p : AreaChartProps)
    (cols : List String) (direction : String) (k j : Nat)
    (hstack : p.stack = true)
    (hok : exOk (renderPaths env p cols direction) = true)
    (hk : k < cols.length) (hj : j < p.series.length) :
    renderPaths env p cols direction =
      renderPathsAux env p (dirOf direction) cols 0
        (List.replicate p.series.length 0) ∧
    ∃ gs g dp,
      renderPaths env p cols direction = Except.ok gs ∧
      gs[k]? = some g ∧
      g.data[j]? = some dp ∧
      dp.y0 = p.yScale.fn (stackSum p.series (dirOf direction) cols j k) ∧
      dp.y1 = p.yScale.fn (stackSum p.series (dirOf direction) cols j k +
        dirOf direction * rowVal p.series j (cols.getD k "")) := by
  refine ⟨rfl, ?_⟩
  cases hrp : renderPaths env p cols direction with
  | error e => rw [hrp] at hok; simp [exOk] at hok
  | ok gs =>
    have hrp' : renderPathsAux env p (dirOf direction) cols 0
        (List.replicate p.series.length 0) = Except.ok gs := hrp
    obtain ⟨ast, pst, ha, hl, hg⟩ := renderPathsAux_get env p (dirOf direction)
      cols 0 _ gs hrp' k hk
    have hsp : p.series[j]? = some p.series[j] := List.getElem?_eq_getElem hj
    have hoffs := offsAfter_get? p (dirOf direction) j _ hsp (cols.take k)
      (List.replicate p.series.length 0) 0 (replicate_get?_zero _ _ hj)
    rw [hstack] at hoffs
    simp only [if_pos] at hoffs
    have hdp := buildData_fst_get? p.timeScale.fn p.yScale.fn p.stack
      (dirOf direction) (cols.getD k "") p.series
      (offsAfter p (dirOf direction) (cols.take k)
        (List.replicate p.series.length 0)) j _ _ hoffs hsp
    have hrv : rowVal p.series j (cols.getD k "") =
        (p.series[j]).get (cols.getD k "") := by
      simp [rowVal, List.get?_eq_getElem?, hsp]
    refine ⟨gs,
      mkGroup env p (dirOf direction) (cols.getD k "") (0 + k)
        (offsAfter p (dirOf direction) (cols.take k)
          (List.replicate p.series.length 0)) ast pst,
      ⟨p.timeScale.fn (p.series[j]).timestamp,
       p.yScale.fn (0 +
         (List.map (fun c => dirOf direction * rowVal p.series j c) (cols.take k)).sum),
       p.yScale.fn (0 +
         (List.map (fun c => dirOf direction * rowVal p.series j c) (cols.take k)).sum +
         dirOf direction * (p.series[j]).get (cols.getD k ""))⟩,
      rfl, hg, ?_, ?_, ?_⟩
    · simpa [mkGroup] using hdp
    · simp [stackSum]
    · simp [stackSum, rowVal, List.get?_eq_getElem?, hsp]

/-- Witness for C1 at a concrete stacked two-column render. -/
theorem areaChart_renderPaths_stacked_bands_witness :
    ∃ gs g dp,
      renderPaths exEnv exProps ["in", "out"] "up" = Except.ok gs ∧
      gs[1]? = some g ∧
      g.data[0]? = some dp ∧
      dp.y0 = exProps.yScale.fn (stackSum exProps.series (dirOf "up") ["in", "out"] 0 1) ∧
      dp.y1 = exProps.yScale.fn (stackSum exProps.series (dirOf "up") ["in", "out"] 0 1 +
        dirOf "up" * rowVal exProps.series 0 (["in", "out"].getD 1 "")) :=
  (areaChart_renderPaths_stacked_bands exEnv exProps ["in", "out"] "up" 1 0 rfl
    (by decide) (by decide) (by decide)).2

/-- C4: with the stack prop falsy, the offsets accumulator stays all zeros
through `renderPaths`, so every data point of every column has
`y0 = yScale(0)` (and `y1 = yScale(dir*v)`): the areas are overlaid from the
axis rather than stacked. -/
theorem areaChart_renderPaths_unstacked (env : D3Env) (p : AreaChartProps)
    (cols : List String) (direction : String) (k j : Nat)
    (hstack : p.stack = false)
    (hok : exOk (renderPaths env p cols direction) = true)
    (hk : k < cols.length) (hj : j < p.series.length) :
    offsAfter p (dirOf direction) cols (List.replicate p.series.length 0) =
      List.replicate p.series.length 0 ∧
    ∃ gs g dp,
      renderPaths env p cols direction = Except.ok gs ∧
      gs[k]? = some g ∧
      g.data[j]? = some dp ∧
      dp.y0 = p.yScale.fn 0 ∧
      dp.y1 = p.yScale.fn (dirOf direction * rowVal p.series j (cols.getD k "")) := by
  refine ⟨offsAfter_unstacked p (dirOf direction) hstack cols _ (by simp), ?_⟩
  cases hrp : renderPaths env p cols direction with
  | error e => rw [hrp] at hok; simp [exOk] at hok
  | ok gs =>
    have hrp' : renderPathsAux env p (dirOf direction) cols 0
        (List.replicate p.series.length 0) = Except.ok gs := hrp
    obtain ⟨ast, pst, ha, hl, hg⟩ := renderPathsAux_get env p (dirOf direction)
      cols 0 _ gs hrp' k hk
    have hsp : p.series[j]? = some p.series[j] := List.getElem?_eq_getElem hj
    have hzero : (offsAfter p (dirOf direction) (cols.take k)
        (List.replicate p.series.length 0))[j]? = some 0 := by
      rw [offsAfter_unstacked p (dirOf direction) hstack (cols.take k) _ (by simp)]
      exact replicate_get?_zero _ _ hj
    have hdp := buildData_fst_get? p.timeScale.fn p.yScale.fn p.stack
      (dirOf direction) (cols.getD k "") p.series
      (offsAfter p (dirOf direction) (cols.take k)
        (List.replicate p.series.length 0)) j _ _ hzero hsp
    refine ⟨gs,
      mkGroup env p (dirOf direction) (cols.getD k "") (0 + k)
        (offsAfter p (dirOf direction) (cols.take k)
          (List.replicate p.series.length 0)) ast pst,
      ⟨p.timeScale.fn (p.series[j]).timestamp,
       p.yScale.fn 0,
       p.yScale.fn (0 + dirOf direction * (p.series[j]).get (cols.getD k ""))⟩,
      rfl, hg, ?_, rfl, ?_⟩
    · simpa [mkGroup] using hdp
    · simp [rowVal, List.get?_eq_getElem?, hsp]

/-- Witness for C4 at a concrete unstacked render. -/
theorem areaChart_renderPaths_unstacked_witness :
    offsAfter exPropsUnstacked (dirOf "up") ["in", "out"]
      (List.replicate exPropsUnstacked.series.length 0) =
      List.replicate exPropsUnstacked.series.length 0 ∧
    ∃ gs g dp,
      renderPaths exEnv exPropsUnstacked ["in", "out"] "up" = Except.ok gs ∧
      gs[1]? = some g ∧
      g.data[0]? = some dp ∧
      dp.y0 = exPropsUnstacked.yScale.fn 0 ∧
      dp.y1 = exPropsUnstacked.yScale.fn
        (dirOf "up" * rowVal exPropsUnstacked.series 0 (["in", "out"].getD 1 "")) :=
  areaChart_renderPaths_unstacked exEnv exPropsUnstacked ["in", "out"] "up" 1 0 rfl
    (by decide) (by decide) (by decide)

/-- C5: the k-th rendered column group binds its handlers to that column: the
mouse-move effect is an `onHighlightChange(column)` call exactly when that
callback prop is provided, mouse-leave is `onHighlightChange(null)` under the
same condition, click is `onSelectionChange(column)` exactly when that prop
is provided, and an absent callback makes the handler a no-op. -/
theorem areaChart_renderPaths_handlers (env : D3Env) (p : AreaChartProps)
    (cols : List String) (direction : String) (k : Nat)
    (hok : exOk (renderPaths env p cols direction) = true)
    (hk : k < cols.length) :
    ∃ gs g,
      renderPaths env p cols direction = Except.ok gs ∧
      gs[k]? = some g ∧
      g.column = cols.getD k "" ∧
      g.onMouseMove = (if p.onHighlightChange then
        [UiEvent.highlightChange (some (cols.getD k ""))] else []) ∧
      g.onMouseLeave = (if p.onHighlightChange then
        [UiEvent.highlightChange none] else []) ∧
      g.onClick = (if p.onSelectionChange then
        [UiEvent.selectionChange (cols.getD k "")] else []) := by
  cases hrp : renderPaths env p cols direction with
  | error e => rw [hrp] at hok; simp [exOk] at hok
  | ok gs =>
    have hrp' : renderPathsAux env p (dirOf direction) cols 0
        (List.replicate p.series.length 0) = Except.ok gs := hrp
    obtain ⟨ast, pst, ha, hl, hg⟩ := renderPathsAux_get env p (dirOf direction)
      cols 0 _ gs hrp' k hk
    exact ⟨gs, _, rfl, hg, rfl, rfl, rfl, rfl⟩

/-- Witness for C5 at a concrete render with `onHighlightChange` provided and
`onSelectionChange` absent. -/
theorem areaChart_renderPaths_handlers_witness :
    ∃ gs g,
      renderPaths exEnv exProps ["in", "out"] "up" = Except.ok gs ∧
      gs[0]? = some g ∧
      g.column = ["in", "out"].getD 0 "" ∧
      g.onMouseMove = (if exProps.onHighlightChange then
        [UiEvent.highlightChange (some (["in", "out"].getD 0 ""))] else []) ∧
      g.onMouseLeave = (if exProps.onHighlightChange then
        [UiEvent.highlightChange none] else []) ∧
      g.onClick = (if exProps.onSelectionChange then
        [UiEvent.selectionChange (["in", "out"].getD 0 "")] else []) :=
  areaChart_renderPaths_handlers exEnv exProps ["in", "out"] "up" 0
    (by decide) (by decide)

/-- C7: for each rendered group, the area path attribute d is exactly the output of
the external d3 area generator on the stacked data (x0, y0, y1) for the selected
interpolation, and its outline `d` attribute is exactly the external d3 line
generator output on the same data restricted to (x0, y1); the component
computes no geometry itself. -/
theorem areaChart_renderPaths_delegates_geometry (env : D3Env)
    (p : AreaChartProps) (cols : List String) (direction : String) (k : Nat)
    (hok : exOk (renderPaths env p cols direction) = true)
    (hk : k < cols.length) :
    ∃ gs g,
      renderPaths env p cols direction = Except.ok gs ∧
      gs[k]? = some g ∧
      g.areaD = env.d3area p.interpolation
        (g.data.map (fun d => (d.x0, d.y0, d.y1))) ∧
      g.outlineD = env.d3line p.interpolation
        (g.data.map (fun d => (d.x0, d.y1))) := by
  cases hrp : renderPaths env p cols direction with
  | error e => rw [hrp] at hok; simp [exOk] at hok
  | ok gs =>
    have hrp' : renderPathsAux env p (dirOf direction) cols 0
        (List.replicate p.series.length 0) = Except.ok gs := hrp
    obtain ⟨ast, pst, ha, hl, hg⟩ := renderPathsAux_get env p (dirOf direction)
      cols 0 _ gs hrp' k hk
    exact ⟨gs, _, rfl, hg, rfl, rfl⟩

/-- Witness for C7 at a concrete render. -/
theorem areaChart_renderPaths_delegates_geometry_witness :
    ∃ gs g,
      renderPaths exEnv exProps ["in", "out"] "up" = Except.ok gs ∧
      gs[0]? = some g ∧
      g.areaD = exEnv.d3area exProps.interpolation
        (g.data.map (fun d => (d.x0, d.y0, d.y1))) ∧
      g.outlineD = exEnv.d3line exProps.interpolation
        (g.data.map (fun d => (d.x0, d.y1))) :=
  areaChart_renderPaths_delegates_geometry exEnv exProps ["in", "out"] "up" 0
    (by decide) (by decide)

/-- C6: rendering is a deterministic, side-effect-free function of the props:
extensionally equal props (same series, scales, columns, style, stack,
highlight, selection, interpolation) give identical render output; the
embedding is pure, the stacking accumulating only into the locally threaded
offsets list. -/
theorem areaChart_render_deterministic (env : D3Env) (p q : AreaChartProps)
    (h : propsEquiv p q) : render env p = render env q := by
  obtain ⟨ser, ⟨tf, td⟩, ⟨yf, yr⟩, cls, sty, itp, stk, hl, sel, ohc, osc, w⟩ := p
  obtain ⟨ser', ⟨tf', td'⟩, ⟨yf', yr'⟩, cls', sty', itp', stk', hl', sel', ohc', osc', w'⟩ := q
  obtain ⟨h1, h2, h3, h4, h5, h6, h7, h8, h9, h10, h11, h12, h13, h14⟩ := h
  have h2' : tf = tf' := funext h2
  have h4' : yf = yf' := funext h4
  simp only at h1 h3 h5 h6 h7 h8 h9 h10 h11 h12 h13 h14
  subst h1 h2' h3 h4' h5 h6 h7 h8 h9 h10 h11 h12 h13 h14
  rfl

/-- Witness for C6 at concrete props. -/
theorem areaChart_render_deterministic_witness :
    propsEquiv exProps exProps ∧ render exEnv exProps = render exEnv exProps :=
  ⟨⟨rfl, fun _ => rfl, rfl, fun _ => rfl, rfl, rfl, rfl, rfl, rfl, rfl, rfl,
     rfl, rfl, rfl⟩,
   areaChart_render_deterministic exEnv exProps exProps
     ⟨rfl, fun _ => rfl, rfl, fun _ => rfl, rfl, rfl, rfl, rfl, rfl, rfl, rfl,
       rfl, rfl, rfl⟩⟩

/-- C8: `shouldComponentUpdate` returns false exactly when all nine tracked
props are unchanged: series by size then `TimeSeries.is`, the time scale via
`scaleAsString`, width, interpolation, columns and style by JSON
serialisation, the y scale by reference, highlight and selection; identical
props always yield false. -/
theorem areaChart_shouldComponentUpdate_iff (cur next : AreaChartProps) :
    (shouldComponentUpdate cur next = false ↔
      ((cur.series.length = next.series.length ∧
        timeSeriesIs cur.series next.series = true) ∧
       scaleAsString cur.timeScale = scaleAsString next.timeScale ∧
       cur.width = next.width ∧
       cur.interpolation = next.interpolation ∧
       jsonOfColumns cur.columns = jsonOfColumns next.columns ∧
       jsonOfStyle cur.style = jsonOfStyle next.style ∧
       cur.yScale.ref = next.yScale.ref ∧
       cur.highlight = next.highlight ∧
       cur.selection = next.selection)) ∧
    shouldComponentUpdate cur cur = false := by
  constructor
  · by_cases hlen : cur.series.length = next.series.length
    · simp [shouldComponentUpdate, hlen, timeSeriesIs]
      tauto
    · simp [shouldComponentUpdate, hlen, timeSeriesIs]
  · simp [shouldComponentUpdate, timeSeriesIs]

/-- C9: with no style prop, `providedAreaStyleMap` returns the built-in
`defaultStyle` for every column, so `style(column, type)` emits no console
message and returns a defined merged style; the error branch is unreachable
without a caller-supplied style. -/
theorem areaChart_style_default_safe (p : AreaChartProps) (c : String)
    (ty : StyleType) (h : p.style = none) :
    providedAreaStyleMap p c = some (toProvided defaultStyle) ∧
    (styleCall p c ty).1 = [] ∧
    ∃ css, (styleCall p c ty).2 = Except.ok css := by
  have hm : providedAreaStyleMap p c = some (toProvided defaultStyle) := by
    simp [providedAreaStyleMap, h]
  refine ⟨hm, ?_, ?_⟩
  · simp [styleCall, hm, hasStyleKey, toProvided, typeField]
  · simp only [styleCall, hm]
    cases ty <;> simp [typeField, toProvided] <;> split_ifs <;> exact ⟨_, rfl⟩

/-- Witness for C9 at concrete props with no style prop. -/
theorem areaChart_style_default_safe_witness :
    providedAreaStyleMap exProps "in" = some (toProvided defaultStyle) ∧
    (styleCall exProps "in" StyleType.line).1 = [] ∧
    ∃ css, (styleCall exProps "in" StyleType.line).2 = Except.ok css :=
  areaChart_style_default_safe exProps "in" StyleType.line rfl

/-- Counterexample to C2 as stated: with a caller style for column "in" that
omits the `area` sub-key, `style("in", "area")` does not return a merged
style at all - the `styleMap[type]` access throws. -/
theorem areaChart_style_missing_area_throws :
    (styleCall exPropsLineOnly "in" StyleType.area).2 = Except.error () := rfl

/-- C2 (amended): provided the resolved style map for the column defines the
sub-key of the requested type, `style(column, type)` resolves exactly one of the
four variants - selection set: `selected` for the selected column, else
`highlighted` for the highlighted column, else `muted`; no selection:
`highlighted` for the highlighted column, else `normal` - and returns the
merge of the built-in default style of that variant with the caller-supplied
variant, or the empty object when that variant is absent. -/
theorem areaChart_style_variant_merge (p : AreaChartProps) (c : String)
    (ty : StyleType) (sm : ProvidedStyleMap) (pv : ProvidedVariants)
    (hm : providedAreaStyleMap p c = some sm)
    (ht : typeField sm ty = some pv) :
    (styleCall p c ty).2 = Except.ok
      (mergeCSS (defaultVariantCSS ty (claimedVariant p c))
        ((variantField pv (claimedVariant p c)).getD [])) := by
  simp only [styleCall, hm, ht]
  unfold claimedVariant
  cases hsel : p.selection with
  | none =>
    cases hhl : p.highlight with
    | none => simp [truthyEq, variantField]
    | some hcol =>
      by_cases hc : hcol = c
      · simp [truthyEq, hc, variantField]
      · simp [truthyEq, hc, variantField]
  | some scol =>
    by_cases hsc : scol = c
    · simp [truthyEq, hsc, variantField]
    · cases hhl : p.highlight with
      | none => simp [truthyEq, hsc, variantField]
      | some hcol =>
        by_cases hc : hcol = c
        · simp [truthyEq, hsc, hc, variantField]
        · simp [truthyEq, hsc, hc, variantField]

/-- Witness for the amended C2 at a concrete caller style whose `line`
sub-key is present. -/
theorem areaChart_style_variant_merge_witness :
    (styleCall exPropsLineOnly "in" StyleType.line).2 = Except.ok
      (mergeCSS (defaultVariantCSS StyleType.line (claimedVariant exPropsLineOnly "in"))
        ((variantField (toProvidedVariants defaultStyle.line)
          (claimedVariant exPropsLineOnly "in")).getD [])) :=
  areaChart_style_variant_merge exPropsLineOnly "in" StyleType.line
    ⟨some (toProvidedVariants defaultStyle.line), none⟩
    (toProvidedVariants defaultStyle.line) rfl rfl

/-- Counterexample to C3 as stated: with a caller style object that has no
entry for column "in", `style("in", "line")` emits both console messages and
then throws instead of returning a merged style. -/
theorem areaChart_style_warns_then_throws :
    (styleCall exPropsEmptyStyle "in" StyleType.line).1 =
      [outlineWarning, areaWarning] ∧
    (styleCall exPropsEmptyStyle "in" StyleType.line).2 = Except.error () := by
  constructor <;> rfl

/-- C3 (amended): `style(column, type)` emits a console message exactly when
the resolved style map lacks the "line" key or lacks the "area" key, and it
returns a merged style without throwing exactly when the resolved style map
defines the key of the requested type (otherwise the styleMap type access
throws a TypeError). -/
theorem areaChart_style_warnings_iff (p : AreaChartProps) (c : String)
    (ty : StyleType) :
    ((styleCall p c ty).1 ≠ [] ↔
      (hasStyleKey (providedAreaStyleMap p c) StyleType.line = false ∨
       hasStyleKey (providedAreaStyleMap p c) StyleType.area = false)) ∧
    ((∃ css, (styleCall p c ty).2 = Except.ok css) ↔
      hasStyleKey (providedAreaStyleMap p c) ty = true) := by
  constructor
  · cases h1 : hasStyleKey (providedAreaStyleMap p c) StyleType.line <;>
    cases h2 : hasStyleKey (providedAreaStyleMap p c) StyleType.area <;>
      simp [styleCall, h1, h2]
  · cases hm : providedAreaStyleMap p c with
    | none => simp [styleCall, hm, hasStyleKey]
    | some sm =>
      cases ht : typeField sm ty with
      | none => simp [styleCall, hm, ht, hasStyleKey]
      | some pv =>
        simp only [styleCall, hm, ht, hasStyleKey, ht, Option.isSome_some,
          iff_true]
        split_ifs <;> exact ⟨_, rfl⟩

/-- C10: `Baseline.render` returns null exactly when the `yScale` prop is
absent or the `value` prop is undefined; otherwise it returns a group
translated vertically to `yScale(value)` containing the horizontal polyline
from (0,0) to (width,0), with the label anchored at x = 5 with textAnchor
"start" when `position` is "left" (the default) and at x = width - 5 with
textAnchor "end" when `position` is "right". -/
theorem baseline_render_spec (env : BaselineEnv) (p : BaselineProps) :
    (baselineRender env p = none ↔ (p.yScale = none ∨ p.value = none)) ∧
    (∀ (ysc : Int → Int) (v : Int), p.yScale = some ysc → p.value = some v →
      ∃ g, baselineRender env p = some g ∧
        g.transform = "translate(0 " ++ toString (ysc v) ++ ")" ∧
        g.points = "0 0 " ++ toString p.width ++ " 0" ∧
        g.label = p.label ∧
        (p.position = "left" →
          g.textAnchor = some "start" ∧ g.textPositionX = some 5) ∧
        (p.position = "right" →
          g.textAnchor = some "end" ∧ g.textPositionX = some (p.width - 5))) := by
  constructor
  · cases hy : p.yScale <;> cases hv : p.value <;> simp [baselineRender, hy, hv]
  · intro ysc v hy hv
    have hr : baselineRender env p = some
        { transform := "translate(0 " ++ toString (ysc v) ++ ")"
          points := "0 0 " ++ toString p.width ++ " 0"
          lineStyle := mergeCSS env.defaultLineStyle (p.styleLine.getD [])
          labelStyle := mergeCSS env.defaultLabelStyle (p.styleLabel.getD [])
          textAnchor := if p.position == "left" then some "start"
            else if p.position == "right" then some "end" else none
          textPositionX := if p.position == "left" then some 5
            else if p.position == "right" then some (p.width - 5) else none
          textPositionY := -3
          label := p.label } := by
      rw [baselineRender, hy, hv]
    refine ⟨_, hr, rfl, rfl, rfl, ?_, ?_⟩
    · intro hp
      rw [hp]
      constructor <;> rfl
    · intro hp
      rw [hp]
      constructor <;> rfl

/-- Witness for C10 at concrete baseline props. -/
theorem baseline_render_spec_witness :
    ∃ g, baselineRender exBaselineEnv exBaselineProps = some g ∧
      g.transform = "translate(0 " ++ toString (exYScale 10) ++ ")" ∧
      g.points = "0 0 " ++ toString exBaselineProps.width ++ " 0" ∧
      g.label = exBaselineProps.label ∧
      g.textAnchor = some "start" ∧ g.textPositionX = some 5 := by
  obtain ⟨g, hg, h1, h2, h3, h4, h5⟩ :=
    (baseline_render_spec exBaselineEnv exBaselineProps).2 exYScale 10 rfl rfl
  obtain ⟨ha, hx⟩ := h4 rfl
  exact ⟨g, hg, h1, h2, h3, ha, hx⟩
